import Mathlib

/-!
Shallow embedding of the KickAlerts cog (`kickalerts.py`): a periodic
live-status watcher for Kick.com channels posting Discord notifications.

Python dynamic values (JSON payloads, config records) are modelled by the
inductive `JVal`.  Python truthiness, `dict.get`, `str.replace`, `str()`,
`str.lower`, `str.strip` and `==` are modelled by explicit functions.
Operations that can raise a Python exception return `Except PyErr`.
-/

/-- Model of a Python/JSON dynamic value as it appears in API payloads and
in the persisted configuration. -/
inductive JVal where
  | null
  | bool (b : Bool)
  | num (n : Int)
  | str (s : String)
  | arr (elems : List JVal)
  | obj (fields : List (String × JVal))

/-- Python exception kinds that the embedded code can raise. -/
inductive PyErr where
  | attributeError
  | typeError
  | indexError
deriving DecidableEq

/-- Python truthiness (`bool(v)`) of a JSON-like value. -/
def truthy : JVal → Bool
  | .null => false
  | .bool b => b
  | .num n => n != 0
  | .str s => !s.isEmpty
  | .arr xs => !xs.isEmpty
  | .obj fs => !fs.isEmpty

mutual

/-- Model of Python `==` on JSON-like values (structural; field order in
objects is compared positionally, which agrees with Python on the scalar
ids this program actually compares). -/
def jbeq : JVal → JVal → Bool
  | .null, .null => true
  | .bool x, .bool y => x == y
  | .num x, .num y => x == y
  | .str x, .str y => x == y
  | .arr xs, .arr ys => jbeqList xs ys
  | .obj xs, .obj ys => jbeqFields xs ys
  | _, _ => false
termination_by structural a => a

/-- Elementwise equality of JSON lists. -/
def jbeqList : List JVal → List JVal → Bool
  | [], [] => true
  | a :: as, b :: bs => jbeq a b && jbeqList as bs
  | _, _ => false
termination_by structural a => a

/-- Positional equality of JSON object fields. -/
def jbeqFields : List (String × JVal) → List (String × JVal) → Bool
  | [], [] => true
  | (k, a) :: as, (l, b) :: bs => k == l && jbeq a b && jbeqFields as bs
  | _, _ => false
termination_by structural a => a

end

/-- Model of Python `d.get(key, dflt)`.  On a dict it returns the stored
value when the key is present (even when that value is JSON null) and the
default otherwise; on any non-dict value the attribute access `.get`
raises `AttributeError`. -/
def jget (v : JVal) (key : String) (dflt : JVal) : Except PyErr JVal :=
  match v with
  | .obj fields => .ok ((fields.lookup key).getD dflt)
  | _ => .error .attributeError

/-- Model of Python subscription `v[i]` for a nonnegative index: lists
index into their elements, strings into one-character strings; other
values raise. -/
def pyIndex (v : JVal) (i : Nat) : Except PyErr JVal :=
  match v with
  | .arr xs =>
      match xs.get? i with
      | some x => .ok x
      | none => .error .indexError
  | .str s =>
      match s.data.get? i with
      | some c => .ok (.str (String.mk [c]))
      | none => .error .indexError
  | _ => .error .typeError

/-- Model of Python iteration `for x in v`: lists yield elements, strings
yield one-character strings, dicts yield their keys; other values raise
`TypeError`. -/
def pyIter (v : JVal) : Except PyErr (List JVal) :=
  match v with
  | .arr xs => .ok xs
  | .str s => .ok (s.data.map fun c => JVal.str (String.mk [c]))
  | .obj fs => .ok (fs.map fun kv => JVal.str kv.1)
  | _ => .error .typeError

/-- Model of Python `str(v)` for the values this program stringifies.
Scalars follow Python exactly; the container cases (never reached by any
property below, since the program only stringifies slugs and viewer
counts) are abbreviated. -/
def pyStr : JVal → String
  | .null => "None"
  | .bool true => "True"
  | .bool false => "False"
  | .num n => toString n
  | .str s => s
  | .arr _ => "[...]"
  | .obj _ => "\x7b...\x7d"

/-- String coercion used where Python requires an actual `str` argument
(for example the second argument of `str.replace`): a non-string raises
`TypeError`. -/
def asStr : JVal → Except PyErr String
  | .str s => .ok s
  | _ => .error .typeError

/-- One left-to-right, non-overlapping replacement pass of `old` by `new`
(the semantics of CPython `str.replace` for a non-empty pattern), with a
fuel argument bounding the number of scanned positions. -/
def strFindRepl (old new : List Char) : Nat → List Char → List Char
  | _, [] => []
  | 0, s => s
  | fuel+1, c :: rest =>
    if old.isPrefixOf (c :: rest) then
      new ++ strFindRepl old new fuel (List.drop (old.length - 1) rest)
    else
      c :: strFindRepl old new fuel rest

/-- Replacement by an empty pattern: CPython inserts `new` before every
character and at the end. -/
def replEmptyPat (new : List Char) : List Char → List Char
  | [] => new
  | c :: rest => new ++ c :: replEmptyPat new rest

/-- Model of Python `s.replace(old, new)`. -/
def pyReplace (s old new : String) : String :=
  if old.data.isEmpty then String.mk (replEmptyPat new.data s.data)
  else String.mk (strFindRepl old.data new.data s.data.length s.data)

/-- Boolean test for `old` occurring as a contiguous substring of `s`. -/
def containsSub (old : List Char) : List Char → Bool
  | [] => old.isEmpty
  | c :: rest => old.isPrefixOf (c :: rest) || containsSub old rest

/-- Model of Python `str.lower` restricted to ASCII letters (the only
characters exercised here). -/
def pyLowerChar (c : Char) : Char :=
  if 'A' ≤ c && c ≤ 'Z' then Char.ofNat (c.toNat + 32) else c

/-- Model of Python `s.lower()` (ASCII). -/
def pyLower (s : String) : String := String.mk (s.data.map pyLowerChar)

/-- Characters removed by Python `str.strip()` with no argument. -/
def isPySpace (c : Char) : Bool :=
  c == ' ' || c == '\t' || c == '\n' || c == '\r' || c == '\x0b' || c == '\x0c'

/-- Model of Python `s.strip(...)` for a character class `p`: removes
matching characters from both ends. -/
def pyStripSet (p : Char → Bool) (s : String) : String :=
  String.mk (((s.data.dropWhile p).reverse.dropWhile p).reverse)

/-! ## Upstream client (`_fetch_channel_data`, lines 88-119) -/

/-- Base endpoint for channel lookups (`KICK_API_BASE`). -/
def KICK_API_BASE : String := "https://kick.com/api/v2/channels"

/-- Site base URL (`KICK_BASE_URL`). -/
def KICK_BASE_URL : String := "https://kick.com"

/-- Request URL built by `_fetch_channel_data` (line 99):
`f"{KICK_API_BASE}/{username.lower()}"`.  The only normalization applied
inside the fetch is `str.lower`. -/
def fetch_request_url (username : String) : String :=
  KICK_API_BASE ++ "/" ++ pyLower username

/-- Username normalization performed by the `kickalert add` command
(line 475) before it calls the fetch:
`username.lower().strip().strip("/")`. -/
def add_command_username (username : String) : String :=
  pyStripSet (fun c => c == '/') (pyStripSet isPySpace (pyLower username))

/-- Outcome of the underlying HTTP GET, as distinguished by the code:
a status with a JSON body, a timeout (`asyncio.TimeoutError`), a
network-level fault (`aiohttp.ClientError`), or any other exception. -/
inductive HttpOutcome where
  | status (code : Nat) (body : JVal)
  | timeout
  | clientError
  | unexpectedError

/-- Return value of `_fetch_channel_data` (lines 100-119) as a function of
the HTTP outcome: 200 returns the parsed JSON body; 404 logs a debug line
and returns `None`; every other status logs a warning and returns `None`;
timeouts and network faults are caught and return `None`. -/
def fetch_channel_data : HttpOutcome → Option JVal
  | .status code body =>
      if code = 200 then some body
      else if code = 404 then none
      else none
  | .timeout => none
  | .clientError => none
  | .unexpectedError => none

/-! ## Payload normalization (`_parse_stream_info`, lines 121-167) -/

/-- The normalized stream-info record (the `info` dict): every key is
always present, so Python `info.get(k, d)` coincides with field access. -/
structure StreamInfo where
  is_live : JVal
  username : JVal
  display_name : JVal
  avatar_url : JVal
  channel_url : JVal
  followers : JVal
  is_verified : JVal
  banner_url : JVal
  stream_id : JVal
  stream_title : JVal
  viewer_count : JVal
  category : JVal
  thumbnail_url : JVal
  started_at : JVal
  language : JVal
  is_mature : JVal
  tags : JVal

/-- The base fields of the `info` dict literal (lines 126-135). -/
structure BaseInfo where
  username : JVal
  display_name : JVal
  avatar_url : JVal
  channel_url : JVal
  followers : JVal
  is_verified : JVal
  banner_url : JVal

/-- Base fields of `_parse_stream_info` (lines 126-135), with Python's
eager evaluation of `.get` default arguments: the inner
`data.get("user", {}).get(...)` defaults are computed before the outer
lookups, so a stored JSON-null `user` raises `AttributeError` here. -/
def parse_base (data : JVal) : Except PyErr BaseInfo := do
  let user1 ← jget data "user" (.obj [])
  let unameDflt ← jget user1 "username" (.str "Unknown")
  let username ← jget data "slug" unameDflt
  let dnDflt ← jget data "slug" (.str "Unknown")
  let user2 ← jget data "user" (.obj [])
  let display_name ← jget user2 "username" dnDflt
  let user3 ← jget data "user" (.obj [])
  let avatar_url ← jget user3 "profile_pic" .null
  let slug ← jget data "slug" (.str "")
  let channel_url := JVal.str (KICK_BASE_URL ++ "/" ++ pyStr slug)
  let followers ← jget data "followersCount" (.num 0)
  let is_verified ← jget data "verified" (.bool false)
  let banner1 ← jget data "banner_image" .null
  let banner_url ←
    if truthy banner1 then do
      let b ← jget data "banner_image" (.obj [])
      jget b "url" .null
    else pure .null
  pure ⟨username, display_name, avatar_url, channel_url, followers, is_verified, banner_url⟩

/-- Live-only fields computed in the `if is_live and livestream` branch
(lines 138-153): session id, title, viewer count, category (list of
categories first, then singular category, defaulting to "Unknown"),
thumbnail (nested object or bare value), start time, language, mature
flag and tag names. -/
def parse_live_fields (livestream : JVal) : Except PyErr
    (JVal × JVal × JVal × JVal × JVal × JVal × JVal × JVal × JVal) := do
  let stream_id ← jget livestream "id" .null
  let stream_title ← jget livestream "session_title" (.str "No Title")
  let viewer_count ← jget livestream "viewer_count" (.num 0)
  let cats ← jget livestream "categories" .null
  let category ←
    if truthy cats then do
      let cs ← jget livestream "categories" (.arr [.obj []])
      let c0 ← pyIndex cs 0
      jget c0 "name" (.str "Unknown")
    else do
      let cat ← jget livestream "category" .null
      if truthy cat then do
        let c ← jget livestream "category" (.obj [])
        jget c "name" (.str "Unknown")
      else pure (.str "Unknown")
  let thumb ← jget livestream "thumbnail" .null
  let thumbnail_url ←
    match thumb with
    | .obj _ => do
        let t ← jget livestream "thumbnail" (.obj [])
        jget t "url" .null
    | _ => pure thumb
  let started_at ← jget livestream "created_at" .null
  let language ← jget livestream "language" (.str "en")
  let is_mature ← jget livestream "is_mature" (.bool false)
  let tagsRaw ← jget livestream "tags" (.arr [])
  let tagItems ← pyIter tagsRaw
  let tags ← tagItems.mapM fun tag => jget tag "name" (.str "")
  pure (stream_id, stream_title, viewer_count, category, thumbnail_url,
        started_at, language, is_mature, .arr tags)

/-- Model of `_parse_stream_info` (lines 121-167).  `is_live` is the raw
Python value of `livestream is not None and livestream.get("is_live",
False)` (the literal `False` when livestream is null, otherwise the
looked-up flag).  The live-only fields come from the live branch exactly
when `is_live` and `livestream` are both truthy, and otherwise are the
documented constants of the else branch (lines 154-165). -/
def parse_stream_info (data : JVal) : Except PyErr StreamInfo := do
  let livestream ← jget data "livestream" .null
  let is_live ←
    match livestream with
    | .null => pure (JVal.bool false)
    | ls => jget ls "is_live" (.bool false)
  let base ← parse_base data
  if truthy is_live && truthy livestream then do
    let lf ← parse_live_fields livestream
    pure { is_live := is_live
           username := base.username
           display_name := base.display_name
           avatar_url := base.avatar_url
           channel_url := base.channel_url
           followers := base.followers
           is_verified := base.is_verified
           banner_url := base.banner_url
           stream_id := lf.1
           stream_title := lf.2.1
           viewer_count := lf.2.2.1
           category := lf.2.2.2.1
           thumbnail_url := lf.2.2.2.2.1
           started_at := lf.2.2.2.2.2.1
           language := lf.2.2.2.2.2.2.1
           is_mature := lf.2.2.2.2.2.2.2.1
           tags := lf.2.2.2.2.2.2.2.2 }
  else
    pure { is_live := is_live
           username := base.username
           display_name := base.display_name
           avatar_url := base.avatar_url
           channel_url := base.channel_url
           followers := base.followers
           is_verified := base.is_verified
           banner_url := base.banner_url
           stream_id := .null
           stream_title := .null
           viewer_count := .num 0
           category := .null
           thumbnail_url := .null
           started_at := .null
           language := .null
           is_mature := .bool false
           tags := .arr [] }

/-! ## Notification content (`_check_single_streamer` lines 387-395) -/

/-- Placeholder substitution applied to a custom message (lines 390-394):
five sequential `str.replace` calls, in the fixed source order
streamer, game, title, url, viewers. -/
def apply_template (custom_msg streamer game title url viewers : String) : String :=
  pyReplace
    (pyReplace
      (pyReplace
        (pyReplace
          (pyReplace custom_msg "{streamer}" streamer)
          "{game}" game)
        "{title}" title)
      "{url}" url)
    "{viewers}" viewers

/-- The same five substitutions applied in a different order (game before
streamer), following the specification text that calls the result
order-independent; used to compare against `apply_template`. -/
def apply_template_game_first (custom_msg streamer game title url viewers : String) : String :=
  pyReplace
    (pyReplace
      (pyReplace
        (pyReplace
          (pyReplace custom_msg "{game}" game)
          "{streamer}" streamer)
        "{title}" title)
      "{url}" url)
    "{viewers}" viewers

/-! ## Transition engine (`_check_single_streamer`, lines 340-447) -/

/-- Persisted per-streamer watch record (the dict documented at lines
33-42 and created at lines 505-513).  A `none` in `delete_after_offline`
models a missing key, for which line 425 falls back to the guild-level
`auto_delete`.  `is_live` keeps only truthiness, which is the only way
the program reads it back. -/
structure WatchRecord where
  channel_id : Option Int
  ping_role_id : Option Int
  custom_message : Option String
  delete_after_offline : Option Bool
  last_message_id : Option Int
  is_live : Bool
  last_stream_id : JVal

/-- Truthiness of an optional integer id as Python sees it (`None` and
`0` are falsy). -/
def optIdTruthy : Option Int → Bool
  | none => false
  | some n => n != 0

/-- Python `a or b` on optional ids (line 365: `streamer_config.get(
"channel_id") or global_channel_id`, and line 374 for ping roles). -/
def pyOrId (a b : Option Int) : Option Int :=
  if optIdTruthy a then a else b

/-- Result of the Discord `channel.send` call (line 398) — success with
the new message id, or one of the two swallowed failures (lines 407-410). -/
inductive SendOutcome where
  | success (msgId : Int)
  | forbidden
  | httpError

/-- Result of `channel.fetch_message` (lines 423 and 443); all failure
modes are caught together (lines 432, 446). -/
inductive FetchMsgOutcome where
  | found
  | notFound
  | forbidden
  | httpError

/-- The external collaborators a single check interacts with: channel and
role resolution in the guild, and the delivery outcomes of this cycle. -/
structure CheckDeps where
  hasChannel : Int → Bool
  hasRole : Int → Bool
  roleMention : Int → String
  sendRes : SendOutcome
  fetchMsgRes : FetchMsgOutcome

/-- Delivery operations attempted during one check. -/
inductive Effect where
  | send (content : Option String)
  | fetchMessage (msgId : Int)
  | deleteMessage (msgId : Int)
  | editMessage (msgId : Int)

/-- Whether an effect is a notification send. -/
def Effect.isSend : Effect → Bool
  | .send _ => true
  | _ => false

/-- Whether an effect edits or deletes an existing message. -/
def Effect.isEditOrDelete : Effect → Bool
  | .deleteMessage _ => true
  | .editMessage _ => true
  | _ => false

/-- Number of send attempts in an effect list. -/
def sendCount (effs : List Effect) : Nat := (effs.filter Effect.isSend).length

/-- Number of edit/delete attempts in an effect list. -/
def editDeleteCount (effs : List Effect) : Nat :=
  (effs.filter Effect.isEditOrDelete).length

/-- Values accepted by the thousands-separated format `f"{v:,}"`. -/
def fmtThousandsOk : JVal → Bool
  | .num _ => true
  | .bool _ => true
  | _ => false

/-- Values accepted by the slice `v[:5]`. -/
def sliceOk : JVal → Bool
  | .arr _ => true
  | .str _ => true
  | _ => false

/-- Exception behaviour of `_build_live_embed` (lines 171-257).  The
embed is pure rendering and carries no transition decision; the only
statements in it that can raise are the viewer-count format
`f"{viewer_count:,}"` (lines 204 and 237) on a non-numeric value and the
tag slice `info["tags"][:5]` (line 220) on an unsliceable truthy value.
Everything else (str() interpolation, and the ISO-8601 parse of
`started_at`, whose errors lines 216-217 swallow) is total. -/
def build_live_embed_chk (info : StreamInfo) (style : JVal)
    (show_viewers _show_category : Bool) : Except PyErr Unit :=
  if jbeq style (.str "detailed") then
    if show_viewers && !fmtThousandsOk info.viewer_count then .error .typeError
    else if truthy info.tags && !sliceOk info.tags then .error .typeError
    else .ok ()
  else
    if show_viewers && !fmtThousandsOk info.viewer_count then .error .typeError
    else .ok ()

/-- Content assembly of the went-live branch (lines 380-395): an optional
role mention, then — when a custom message is set and non-empty — the
placeholder substitution, appended below the mention.  In the `info`
dict every key is present, so `info.get("category", "Unknown")` etc. are
plain field reads; `str.replace` raises `TypeError` when a substituted
value is not a string, and `str(...)` is applied to the viewer count. -/
def build_content (deps : CheckDeps) (info : StreamInfo)
    (custom_message : Option String) (ping_role_id : Option Int) :
    Except PyErr (Option String) := do
  let content : Option String :=
    match ping_role_id with
    | some rid => if rid != 0 && deps.hasRole rid then some (deps.roleMention rid) else none
    | none => none
  match custom_message with
  | some cm =>
      if cm.isEmpty then pure content
      else do
        let dn ← asStr info.display_name
        let game ← asStr info.category
        let title ← asStr info.stream_title
        let url ← asStr info.channel_url
        let m := apply_template cm dn game title url (pyStr info.viewer_count)
        pure (some (match content with | some c => c ++ "\n" ++ m | none => m))
  | none => pure content

/-- Side effects of the went-offline branch (lines 418-433): when a
previous announcement message id is recorded (and truthy), fetch the
message, then delete it (when `delete_after_offline`, defaulting to the
guild `auto_delete`) or edit it to the offline embed.  Failures of any
of the three delivery calls are swallowed (line 432), so every attempt
is recorded regardless of its outcome. -/
def offline_effects (deps : CheckDeps) (rec : WatchRecord) (auto_delete : Bool) :
    List Effect :=
  match rec.last_message_id with
  | some mid =>
      if mid != 0 then
        .fetchMessage mid ::
          (match deps.fetchMsgRes with
           | .found =>
               if rec.delete_after_offline.getD auto_delete then [.deleteMessage mid]
               else [.editMessage mid]
           | _ => [])
      else []
  | none => []

/-- Outcome of one check: the persisted record afterwards and the
delivery operations attempted. -/
structure CheckResult where
  record : WatchRecord
  effects : List Effect

/-- Model of `_check_single_streamer` (lines 340-447).  `fetched = none`
models `_fetch_channel_data` returning `None` (line 354 returns).  The
Discord channel is resolved first (record-level id `or` guild default,
line 365; unset/unresolvable ids return with no action, lines 366-371).
Then exactly one of the four transitions runs: went-live (line 377:
`is_live and (not was_live or (current_stream_id and current_stream_id
!= last_stream_id))`) sends a new announcement and persists the new
state only when the send succeeded; went-offline (line 413) performs the
offline handling and always persists `is_live=False,
last_message_id=None`; still-live with detailed style (line 438)
refreshes the previous message; otherwise nothing happens.  The single
store writer assumption makes the transactional re-reads (lines 402,
415, 418) coincide with `rec`. -/
def check_single_streamer (deps : CheckDeps) (fetched : Option StreamInfo)
    (rec : WatchRecord) (embed_style : JVal)
    (show_viewers show_category auto_delete : Bool)
    (global_channel_id global_ping_role_id : Option Int) :
    Except PyErr CheckResult :=
  match fetched with
  | none => .ok ⟨rec, []⟩
  | some info =>
    let was_live := rec.is_live
    let is_live := truthy info.is_live
    let current_stream_id := info.stream_id
    match pyOrId rec.channel_id global_channel_id with
    | none => .ok ⟨rec, []⟩
    | some cid =>
      if cid == 0 then .ok ⟨rec, []⟩
      else if !deps.hasChannel cid then .ok ⟨rec, []⟩
      else
        let ping_role_id := pyOrId rec.ping_role_id global_ping_role_id
        if is_live && (!was_live ||
            (truthy current_stream_id && !jbeq current_stream_id rec.last_stream_id)) then do
          let _e ← build_live_embed_chk info embed_style show_viewers show_category
          let content ← build_content deps info rec.custom_message ping_role_id
          match deps.sendRes with
          | .success mid =>
              .ok ⟨{ rec with
                      is_live := true
                      last_stream_id := current_stream_id
                      last_message_id := some mid },
                   [.send content]⟩
          | .forbidden => .ok ⟨rec, [.send content]⟩
          | .httpError => .ok ⟨rec, [.send content]⟩
        else if !is_live && was_live then
          .ok ⟨{ rec with is_live := false, last_message_id := none },
               offline_effects deps rec auto_delete⟩
        else if is_live && was_live && jbeq embed_style (.str "detailed") then
          match rec.last_message_id with
          | some mid =>
              if mid != 0 then
                match deps.fetchMsgRes with
                | .found => do
                    let _e ← build_live_embed_chk info embed_style show_viewers show_category
                    .ok ⟨rec, [.fetchMessage mid, .editMessage mid]⟩
                | _ => .ok ⟨rec, [.fetchMessage mid]⟩
              else .ok ⟨rec, []⟩
          | none => .ok ⟨rec, []⟩
        else .ok ⟨rec, []⟩

/-! ## Scheduler sleep computation (`_stream_checker_loop`, lines 325-330) -/

/-- Per-guild configuration snapshot as read by the scheduler loop. -/
structure GuildData where
  streamers : List (String × WatchRecord)
  check_interval : Option Nat

/-- Python `min` over a list; the empty case is unreachable because the
caller guards with `if intervals`. -/
def pyMin : List Nat → Nat
  | [] => 0
  | x :: xs => xs.foldl Nat.min x

/-- Sleep computation at the end of a scheduler cycle (lines 325-330):
collect `check_interval` (default 60) of every guild whose `streamers`
dict is truthy, take their minimum (60 when the list is empty), then
clamp below by 30. -/
def compute_sleep_time (all_guilds : List GuildData) : Nat :=
  let intervals :=
    (all_guilds.filter fun g => !g.streamers.isEmpty).map
      fun g => g.check_interval.getD 60
  let sleep_time := if intervals.isEmpty then 60 else pyMin intervals
  Nat.max sleep_time 30

/-! ## Helper lemmas -/

mutual

/-- The modelled Python equality is reflexive. -/
theorem jbeq_refl : ∀ a : JVal, jbeq a a = true
  | .null => rfl
  | .bool x => by simp [jbeq]
  | .num x => by simp [jbeq]
  | .str x => by simp [jbeq]
  | .arr xs => by rw [jbeq]; exact jbeqList_refl xs
  | .obj xs => by rw [jbeq]; exact jbeqFields_refl xs
termination_by structural a => a

/-- Reflexivity of elementwise JSON list equality. -/
theorem jbeqList_refl : ∀ xs : List JVal, jbeqList xs xs = true
  | [] => rfl
  | a :: as => by rw [jbeqList]; simp [jbeq_refl a, jbeqList_refl as]
termination_by structural xs => xs

/-- Reflexivity of positional JSON field equality. -/
theorem jbeqFields_refl : ∀ xs : List (String × JVal), jbeqFields xs xs = true
  | [] => rfl
  | (k, a) :: as => by rw [jbeqFields]; simp [jbeq_refl a, jbeqFields_refl as]
termination_by structural xs => xs

end

/-- A replacement pass over a string not containing the pattern is the
identity, whatever the fuel. -/
theorem strFindRepl_no_occur (old new : List Char) :
    ∀ (fuel : Nat) (s : List Char), containsSub old s = false →
      strFindRepl old new fuel s = s := by
  intro fuel
  induction fuel with
  | zero => intro s _; cases s <;> rfl
  | succ n ih =>
      intro s h
      cases s with
      | nil => rfl
      | cons c rest =>
          rw [containsSub, Bool.or_eq_false_iff] at h
          rw [strFindRepl, if_neg (by simp [h.1]), ih rest h.2]

/-- Python `replace` leaves a string without an occurrence of the
pattern unchanged. -/
theorem pyReplace_no_occur (s old new : String)
    (h : containsSub old.data s.data = false) : pyReplace s old new = s := by
  have hne : old.data.isEmpty = false := by
    cases ho : old.data with
    | nil =>
        exfalso
        rw [ho] at h
        cases hs : s.data <;> rw [hs] at h <;> simp [containsSub, List.isPrefixOf] at h
    | cons c cs => rfl
  rw [pyReplace, hne]
  simp only [Bool.false_eq_true, if_false]
  rw [strFindRepl_no_occur old.data new.data s.data.length s.data h]

/-- The offline handling never attempts a send. -/
theorem sendCount_offline_effects (deps : CheckDeps) (rec : WatchRecord) (auto : Bool) :
    sendCount (offline_effects deps rec auto) = 0 := by
  unfold offline_effects
  cases rec.last_message_id with
  | none => rfl
  | some mid =>
      by_cases h : (mid != 0) = true
      · cases hf : deps.fetchMsgRes <;>
          by_cases hd : rec.delete_after_offline.getD auto = true <;>
            simp [h, hf, hd, sendCount, Effect.isSend]
      · simp [h, sendCount]

/-- Reduction of an `Except` bind on a success value. -/
theorem exc_bind_ok {ε α β : Type} (a : α) (f : α → Except ε β) :
    (Except.ok a >>= f) = f a := rfl

/-- Reduction of an `Except` bind on an error value. -/
theorem exc_bind_err {ε α β : Type} (e : ε) (f : α → Except ε β) :
    ((Except.error e : Except ε α) >>= f) = .error e := rfl

/-- Reduction of an `Except` bind on a pure value. -/
theorem exc_pure_bind {ε α β : Type} (a : α) (f : α → Except ε β) :
    ((pure a : Except ε α) >>= f) = f a := rfl

/-- When the freshness disjunction of line 377 is false (already live
and no truthy, different session id), no branch of the check attempts a
send: the check resolves to offline handling, a refresh, or a no-op. -/
theorem no_send_of_not_fresh
    (deps : CheckDeps) (info : StreamInfo) (rec : WatchRecord)
    (style : JVal) (sv sc auto : Bool) (gch grole : Option Int) (res : CheckResult)
    (hfresh : (!rec.is_live ||
        (truthy info.stream_id && !jbeq info.stream_id rec.last_stream_id)) = false)
    (hok : check_single_streamer deps (some info) rec style sv sc auto gch grole = .ok res) :
    sendCount res.effects = 0 := by
  simp only [check_single_streamer] at hok
  rw [hfresh, Bool.and_false] at hok
  split at hok
  · cases hok; rfl
  · split at hok
    · cases hok; rfl
    · split at hok
      · cases hok; rfl
      · split at hok
        · simp_all
        · split at hok
          · cases hok; exact sendCount_offline_effects deps rec auto
          · split at hok
            · split at hok
              · split at hok
                · split at hok
                  · cases hemb : build_live_embed_chk info style sv sc
                    · rw [hemb, exc_bind_err] at hok; cases hok
                    · rw [hemb, exc_bind_ok] at hok; cases hok; rfl
                  · cases hok; rfl
                · cases hok; rfl
              · cases hok; rfl
            · cases hok; rfl

/-! ## Sample data for concrete instantiations -/

/-- Sample collaborators: every channel and role resolves, sends succeed
with message id 42, message fetches succeed. -/
def sampleDeps : CheckDeps :=
  { hasChannel := fun _ => true
    hasRole := fun _ => true
    roleMention := fun rid => "<@&" ++ toString rid ++ ">"
    sendRes := .success 42
    fetchMsgRes := .found }

/-- Sample collaborators whose send fails with a permission error. -/
def sampleDepsForbidden : CheckDeps := { sampleDeps with sendRes := .forbidden }

/-- A watch record that has not yet seen its streamer live. -/
def watchOffline : WatchRecord :=
  { channel_id := some 1
    ping_role_id := none
    custom_message := none
    delete_after_offline := some false
    last_message_id := none
    is_live := false
    last_stream_id := .null }

/-- A watch record currently marked live on session 4 with announcement
message 9. -/
def watchLive : WatchRecord :=
  { watchOffline with
      is_live := true
      last_stream_id := JVal.num 4
      last_message_id := some 9 }

/-- A watch record with no delivery channel configured. -/
def recNoChannel : WatchRecord := { watchOffline with channel_id := none }

/-- A fetched live stream info with session id 5. -/
def liveInfo : StreamInfo :=
  { is_live := .bool true
    username := .str "nova"
    display_name := .str "Nova"
    avatar_url := .null
    channel_url := .str "https://kick.com/nova"
    followers := .num 0
    is_verified := .bool false
    banner_url := .null
    stream_id := .num 5
    stream_title := .str "Chess time"
    viewer_count := .num 7
    category := .str "Chess"
    thumbnail_url := .null
    started_at := .null
    language := .str "en"
    is_mature := .bool false
    tags := .arr [] }

/-- The same live stream info with a JSON-null session id (a payload
whose livestream object has no `id`). -/
def nullSidInfo : StreamInfo := { liveInfo with stream_id := JVal.null }

/-- A fetched offline stream info (live-only fields at their defaults). -/
def offlineInfo : StreamInfo :=
  { liveInfo with
      is_live := JVal.bool false
      stream_id := JVal.null
      stream_title := JVal.null
      viewer_count := JVal.num 0
      category := JVal.null
      language := JVal.null }

/-! ## Claim theorems -/

/-- C2: for every check that reaches the transition engine (the delivery
channel resolves) with a record marked live and a fetch reporting not
live, the persisted record afterwards has `is_live = false` and
`last_message_id = none`, for every outcome of the message fetch, edit
or delete (the collaborator outcomes `deps` are universally
quantified). -/
theorem went_offline_clears_state
    (deps : CheckDeps) (info : StreamInfo) (rec : WatchRecord)
    (style : JVal) (sv sc auto : Bool) (gch grole : Option Int) (cid : Int)
    (hch : pyOrId rec.channel_id gch = some cid) (hcid : cid ≠ 0)
    (hhas : deps.hasChannel cid = true)
    (hwas : rec.is_live = true) (hoff : truthy info.is_live = false) :
    check_single_streamer deps (some info) rec style sv sc auto gch grole
      = .ok ⟨{ rec with is_live := false, last_message_id := none },
             offline_effects deps rec auto⟩ := by
  simp only [check_single_streamer]
  simp only [hch]
  rw [if_neg (show ¬ ((cid == 0) = true) by simp [hcid])]
  rw [if_neg (show ¬ ((!deps.hasChannel cid) = true) by simp [hhas])]
  rw [hoff, hwas, Bool.false_and]
  rw [if_neg (show ¬ (false = true) by simp)]
  rw [if_pos (show (!false && true) = true from rfl)]

/-- C2 witness: a concrete went-offline check clears the live mark and
the stored message id. -/
theorem went_offline_clears_state_witness :
    check_single_streamer sampleDeps (some offlineInfo) watchLive (.str "detailed")
        true true false none none
      = .ok ⟨{ watchLive with is_live := false, last_message_id := none },
             offline_effects sampleDeps watchLive false⟩ :=
  went_offline_clears_state sampleDeps offlineInfo watchLive (.str "detailed")
    true true false none none 1 rfl (by decide) rfl rfl rfl

/-- C4: when a went-live transition is taken (fetch is live, channel
resolves, the freshness condition of line 377 holds) and the send fails
with a permission error or a generic delivery failure, the failure is
swallowed (the check returns normally with only the send attempt as an
effect) and the persisted record is exactly the previous one — in
particular `last_message_id` is not set. -/
theorem send_failure_leaves_record
    (deps : CheckDeps) (info : StreamInfo) (rec : WatchRecord)
    (style : JVal) (sv sc auto : Bool) (gch grole : Option Int)
    (cid : Int) (content : Option String)
    (hch : pyOrId rec.channel_id gch = some cid) (hcid : cid ≠ 0)
    (hhas : deps.hasChannel cid = true)
    (hlive : truthy info.is_live = true)
    (hfresh : (!rec.is_live ||
        (truthy info.stream_id && !jbeq info.stream_id rec.last_stream_id)) = true)
    (hemb : build_live_embed_chk info style sv sc = .ok ())
    (hcontent : build_content deps info rec.custom_message (pyOrId rec.ping_role_id grole)
        = .ok content)
    (hfail : deps.sendRes = .forbidden ∨ deps.sendRes = .httpError) :
    check_single_streamer deps (some info) rec style sv sc auto gch grole
      = .ok ⟨rec, [.send content]⟩ := by
  simp only [check_single_streamer]
  simp only [hch]
  rw [if_neg (show ¬ ((cid == 0) = true) by simp [hcid])]
  rw [if_neg (show ¬ ((!deps.hasChannel cid) = true) by simp [hhas])]
  rw [hlive, hfresh]
  rw [if_pos (show (true && true) = true from rfl)]
  rw [hemb, exc_bind_ok, hcontent, exc_bind_ok]
  rcases hfail with h | h <;> rw [h]

/-- C4 witness: a concrete went-live check whose send is rejected with a
permission error leaves the record untouched. -/
theorem send_failure_leaves_record_witness :
    check_single_streamer sampleDepsForbidden (some liveInfo) watchOffline (.str "detailed")
        true true false none none
      = .ok ⟨watchOffline, [.send none]⟩ :=
  send_failure_leaves_record sampleDepsForbidden liveInfo watchOffline (.str "detailed")
    true true false none none 1 none rfl (by decide) rfl rfl rfl rfl rfl (Or.inl rfl)

/-- C10: when neither the record-level delivery channel id nor the scope
default is set (or the resolved id is the falsy 0, or the guild has no
such channel), the check performs no delivery operation at all and
returns the record unchanged — for every fetch outcome, hence for every
transition kind including went-offline. -/
theorem unresolved_channel_no_writes
    (deps : CheckDeps) (fetched : Option StreamInfo) (rec : WatchRecord)
    (style : JVal) (sv sc auto : Bool) (gch grole : Option Int)
    (h : pyOrId rec.channel_id gch = none ∨ pyOrId rec.channel_id gch = some 0 ∨
         ∃ cid, pyOrId rec.channel_id gch = some cid ∧ deps.hasChannel cid = false) :
    check_single_streamer deps fetched rec style sv sc auto gch grole = .ok ⟨rec, []⟩ := by
  cases fetched with
  | none => rfl
  | some info =>
      simp only [check_single_streamer]
      rcases h with h | h | ⟨cid, hcid, hhc⟩
      · rw [h]
      · rw [h]; simp
      · rw [hcid]
        by_cases h0 : (cid == 0) = true
        · simp [h0]
        · simp [h0, hhc]

/-- C10 witness: a went-offline check with no configured channel leaves
the stale live record untouched and performs nothing. -/
theorem unresolved_channel_no_writes_witness :
    check_single_streamer sampleDeps
        (some offlineInfo) { recNoChannel with is_live := true } (.str "detailed")
        true true false none none
      = .ok ⟨{ recNoChannel with is_live := true }, []⟩ :=
  unresolved_channel_no_writes sampleDeps (some offlineInfo)
    { recNoChannel with is_live := true } (.str "detailed") true true false none none
    (Or.inl rfl)

/-- C5: the scheduler sleep equals 60 when no guild has watched
streamers, and otherwise `max 30 (min of the configured intervals of the
guilds with streamers)`; in particular intervals 45 and 20 with
non-empty streamer maps yield 30. -/
theorem compute_sleep_time_spec (gs : List GuildData) :
    (compute_sleep_time gs =
      if ((gs.filter fun g => !g.streamers.isEmpty).map fun g =>
            g.check_interval.getD 60).isEmpty
      then 60
      else Nat.max 30 (pyMin ((gs.filter fun g => !g.streamers.isEmpty).map fun g =>
            g.check_interval.getD 60))) ∧
    compute_sleep_time [⟨[("a", watchOffline)], some 45⟩, ⟨[("b", watchOffline)], some 20⟩]
      = 30 := by
  constructor
  · simp only [compute_sleep_time]
    by_cases h : ((gs.filter fun g => !g.streamers.isEmpty).map fun g =>
        g.check_interval.getD 60).isEmpty = true
    · simp [h]
    · simp [h, Nat.max_comm]
  · rfl

/-- C7 counterexample: the fetch returns the same value (`None`) for an
HTTP 404 as for a timeout or an HTTP 500, so the 404 outcome is not
distinct from the transient-error outcome and no caller can tell
"entity does not exist" apart from "retry next cycle". -/
theorem fetch_404_equals_transient :
    fetch_channel_data (.status 404 (.obj [])) = fetch_channel_data .timeout ∧
    fetch_channel_data (.status 404 (.obj [])) = fetch_channel_data (.status 500 (.obj [])) ∧
    fetch_channel_data (.status 404 (.obj [])) = none :=
  ⟨rfl, rfl, rfl⟩

/-- C7 (amended): every non-200 status, timeout or network fault maps to
the single absent outcome `none`, and only HTTP 200 yields the payload;
404 is therefore not distinguishable from a transient error by the
caller. -/
theorem fetch_collapses_failures (code : Nat) (body : JVal) (h : code ≠ 200) :
    fetch_channel_data (.status code body) = none ∧
    fetch_channel_data .timeout = none ∧
    fetch_channel_data .clientError = none ∧
    fetch_channel_data .unexpectedError = none ∧
    fetch_channel_data (.status 200 body) = some body := by
  refine ⟨?_, rfl, rfl, rfl, rfl⟩
  simp only [fetch_channel_data]
  rw [if_neg h]
  split <;> rfl

/-- C7 witness: the amended statement at the concrete status 404. -/
theorem fetch_collapses_failures_witness :
    fetch_channel_data (.status 404 .null) = none :=
  (fetch_collapses_failures 404 .null (by decide)).1

/-- C8: evaluation of the parse at the failing payload: an HTTP-200 body
whose `user` field is JSON null makes `data.get("user", {})` return the
stored null instead of the `{}` default, so the chained
`.get("username", ...)` raises `AttributeError` — the normalization is
not total. -/
theorem parse_null_user_raises :
    parse_stream_info (.obj [("user", .null)]) = .error .attributeError := rfl

/-- C9 counterexample: the fetch does not trim whitespace or strip
slashes — usernames differing only in surrounding whitespace or slashes
produce different request URLs. -/
theorem fetch_url_ignores_trim_and_slashes :
    fetch_request_url " nova" ≠ fetch_request_url "nova" ∧
    fetch_request_url "/nova" ≠ fetch_request_url "nova" := by
  exact ⟨by decide, by decide⟩

/-- C9 (amended): the fetch lower-cases the username before building the
request URL — two usernames with the same lower-casing produce the same
request — while trimming and slash-stripping happen only in the add
command (`username.lower().strip().strip("/")`), not inside the fetch. -/
theorem fetch_url_lowercases_only (u v : String) (h : pyLower u = pyLower v) :
    fetch_request_url u = fetch_request_url v ∧
    add_command_username " /Nova/ " = "nova" := by
  constructor
  · simp only [fetch_request_url]; rw [h]
  · decide

/-- C9 witness: the amended statement at usernames differing only in
case. -/
theorem fetch_url_lowercases_only_witness :
    fetch_request_url "NoVa" = fetch_request_url "nova" :=
  (fetch_url_lowercases_only "NoVa" "nova" (by decide)).1

/-- C6 counterexample: the five substitutions are applied in a fixed
order, and the result is not order-independent: when the streamer value
itself contains a later placeholder, the source order substitutes it
again ("Chess") while the game-first order leaves it ("β{game}β" stays). -/
theorem apply_template_order_dependent :
    apply_template "{streamer}" "{game}" "Chess" "Chess time" "https://kick.com/nova" "0"
      ≠ apply_template_game_first "{streamer}" "{game}" "Chess" "Chess time"
          "https://kick.com/nova" "0" ∧
    apply_template "{streamer}" "{game}" "Chess" "Chess time" "https://kick.com/nova" "0"
      = "Chess" ∧
    apply_template_game_first "{streamer}" "{game}" "Chess" "Chess time"
        "https://kick.com/nova" "0" = "{game}" :=
  ⟨by decide, rfl, rfl⟩

/-- C6 (amended): the substitution replaces the five placeholders
literally at every occurrence in the fixed source order streamer, game,
title, url, viewers; a template containing none of the five placeholders
passes through unchanged (so unrecognized tokens are untouched); and the
documented example yields the documented result.  Order-independence
holds only when no substituted value introduces a placeholder, as the
counterexample shows. -/
theorem apply_template_literal_and_passthrough (t a g ti u v : String)
    (hs : containsSub "{streamer}".data t.data = false)
    (hg : containsSub "{game}".data t.data = false)
    (hti : containsSub "{title}".data t.data = false)
    (hu : containsSub "{url}".data t.data = false)
    (hv : containsSub "{viewers}".data t.data = false) :
    apply_template t a g ti u v = t ∧
    apply_template "{streamer} playing {game} — {url}" "Nova" "Chess" "Chess time"
        "https://kick.com/nova" "0" = "Nova playing Chess — https://kick.com/nova" ∧
    apply_template "{streamer} and {streamer}" "Nova" "g" "ti" "u" "vv" = "Nova and Nova" := by
  refine ⟨?_, rfl, rfl⟩
  unfold apply_template
  rw [pyReplace_no_occur t _ _ hs]
  rw [pyReplace_no_occur t _ _ hg]
  rw [pyReplace_no_occur t _ _ hti]
  rw [pyReplace_no_occur t _ _ hu]
  rw [pyReplace_no_occur t _ _ hv]

/-- C6 witness: the amended statement at a template without
placeholders. -/
theorem apply_template_literal_and_passthrough_witness :
    apply_template "no placeholders" "Nova" "Chess" "ti" "u" "vv" = "no placeholders" :=
  (apply_template_literal_and_passthrough "no placeholders" "Nova" "Chess" "ti" "u" "vv"
    (by decide) (by decide) (by decide) (by decide) (by decide)).1

/-- C3: for every 200-payload whose `livestream` field is JSON null or
absent, or whose `is_live` flag is falsy, a successful normalization
yields a record with falsy `is_live` and every live-only field at its
documented empty/null default — never a value from the payload. -/
theorem parse_offline_defaults (d ls : JVal) (info : StreamInfo)
    (hp : parse_stream_info d = .ok info)
    (hls : jget d "livestream" .null = .ok ls)
    (hcond : ls = .null ∨
      ∃ fl, jget ls "is_live" (.bool false) = .ok fl ∧ truthy fl = false) :
    truthy info.is_live = false ∧
    info.stream_id = .null ∧ info.stream_title = .null ∧
    info.viewer_count = .num 0 ∧ info.category = .null ∧
    info.thumbnail_url = .null ∧ info.started_at = .null ∧
    info.language = .null ∧ info.is_mature = .bool false ∧ info.tags = .arr [] := by
  simp only [parse_stream_info] at hp
  rw [hls, exc_bind_ok] at hp
  rcases hcond with h | ⟨fl, hfl, hflf⟩
  · subst h
    rw [exc_pure_bind] at hp
    cases hb : parse_base d with
    | error e => rw [hb, exc_bind_err] at hp; cases hp
    | ok base =>
        rw [hb, exc_bind_ok] at hp
        simp only [truthy, Bool.false_and, Bool.and_false] at hp
        rw [if_neg (show ¬ (false = true) by simp)] at hp
        cases hp
        exact ⟨rfl, rfl, rfl, rfl, rfl, rfl, rfl, rfl, rfl, rfl⟩
  · cases ls with
    | obj fields =>
        simp only [] at hp
        rw [hfl, exc_bind_ok] at hp
        cases hb : parse_base d with
        | error e => rw [hb, exc_bind_err] at hp; cases hp
        | ok base =>
            rw [hb, exc_bind_ok] at hp
            rw [hflf, Bool.false_and] at hp
            rw [if_neg (show ¬ (false = true) by simp)] at hp
            cases hp
            exact ⟨hflf, rfl, rfl, rfl, rfl, rfl, rfl, rfl, rfl, rfl⟩
    | null => cases hfl
    | bool b => cases hfl
    | num n => cases hfl
    | str s => cases hfl
    | arr xs => cases hfl

/-- C3 witness: the theorem at the concrete payload whose livestream
field is JSON null. -/
theorem parse_offline_defaults_witness :
    ∃ info, parse_stream_info (.obj [("livestream", .null)]) = .ok info ∧
      truthy info.is_live = false ∧ info.stream_id = .null ∧ info.tags = .arr [] := by
  have h := parse_offline_defaults (.obj [("livestream", .null)]) .null
    { is_live := .bool false
      username := .str "Unknown"
      display_name := .str "Unknown"
      avatar_url := .null
      channel_url := .str "https://kick.com/"
      followers := .num 0
      is_verified := .bool false
      banner_url := .null
      stream_id := .null
      stream_title := .null
      viewer_count := .num 0
      category := .null
      thumbnail_url := .null
      started_at := .null
      language := .null
      is_mature := .bool false
      tags := .arr [] }
    rfl rfl (Or.inl rfl)
  exact ⟨_, rfl, h.1, h.2.1, h.2.2.2.2.2.2.2.2.2⟩

/-- C1 (amended): for a check whose fetch reports live and whose
delivery channel resolves, a send attempt happens exactly when the
record was not marked live, or the fetched session id is truthy and
differs from the stored one (the truthiness guard of line 377); such a
went-live path never edits or deletes the prior message; and after a
successful send the persisted record carries the new session and
message ids, so a second check of the same session performs zero
additional sends. -/
theorem went_live_send_characterization
    (deps deps2 : CheckDeps) (info : StreamInfo) (rec : WatchRecord)
    (style : JVal) (sv sc auto : Bool) (gch grole : Option Int)
    (cid : Int) (res : CheckResult)
    (hch : pyOrId rec.channel_id gch = some cid) (hcid : cid ≠ 0)
    (hhas : deps.hasChannel cid = true)
    (hlive : truthy info.is_live = true)
    (hok : check_single_streamer deps (some info) rec style sv sc auto gch grole = .ok res) :
    sendCount res.effects
      = (if (!rec.is_live ||
            (truthy info.stream_id && !jbeq info.stream_id rec.last_stream_id)) = true
         then 1 else 0) ∧
    ((!rec.is_live || (truthy info.stream_id && !jbeq info.stream_id rec.last_stream_id))
        = true →
      editDeleteCount res.effects = 0 ∧
      ∀ mid, deps.sendRes = .success mid →
        res.record.is_live = true ∧ res.record.last_stream_id = info.stream_id ∧
        res.record.last_message_id = some mid ∧
        ∀ res2, check_single_streamer deps2 (some info) res.record style sv sc auto gch grole
            = .ok res2 → sendCount res2.effects = 0) := by
  cases hfresh : (!rec.is_live ||
      (truthy info.stream_id && !jbeq info.stream_id rec.last_stream_id)) with
  | false =>
      constructor
      · rw [if_neg (show ¬ (false = true) by simp)]
        exact no_send_of_not_fresh deps info rec style sv sc auto gch grole res hfresh hok
      · intro hcontra; exact Bool.noConfusion hcontra
  | true =>
      simp only [check_single_streamer] at hok
      simp only [hch] at hok
      rw [if_neg (show ¬ ((cid == 0) = true) by simp [hcid])] at hok
      rw [if_neg (show ¬ ((!deps.hasChannel cid) = true) by simp [hhas])] at hok
      rw [hlive, hfresh] at hok
      rw [if_pos (show (true && true) = true from rfl)] at hok
      cases hemb : build_live_embed_chk info style sv sc with
      | error e => rw [hemb, exc_bind_err] at hok; cases hok
      | ok u =>
          rw [hemb, exc_bind_ok] at hok
          cases hcont : build_content deps info rec.custom_message
              (pyOrId rec.ping_role_id grole) with
          | error e => rw [hcont, exc_bind_err] at hok; cases hok
          | ok content =>
              rw [hcont, exc_bind_ok] at hok
              cases hsr : deps.sendRes with
              | success mid =>
                  rw [hsr] at hok
                  cases hok
                  refine ⟨rfl, fun _ => ⟨rfl, ?_⟩⟩
                  intro mid2 hm2
                  injection hm2 with hmm
                  subst hmm
                  refine ⟨rfl, rfl, rfl, ?_⟩
                  intro res2 hok2
                  refine no_send_of_not_fresh deps2 info _ style sv sc auto gch grole res2
                    ?_ hok2
                  simp [jbeq_refl]
              | forbidden =>
                  rw [hsr] at hok
                  cases hok
                  refine ⟨rfl, fun _ => ⟨rfl, ?_⟩⟩
                  intro mid2 hm2
                  cases hm2
              | httpError =>
                  rw [hsr] at hok
                  cases hok
                  refine ⟨rfl, fun _ => ⟨rfl, ?_⟩⟩
                  intro mid2 hm2
                  cases hm2

/-- C1 counterexample: a check while already live whose fetched live
payload has a JSON-null session id: the stored last session id (4)
differs from the fetched one (null) and the channel resolves, yet the
code performs zero sends — it refreshes the old message instead — so a
send does not occur whenever the stored and fetched ids differ. -/
theorem null_session_change_no_send :
    jbeq nullSidInfo.stream_id watchLive.last_stream_id = false ∧
    truthy nullSidInfo.is_live = true ∧ watchLive.is_live = true ∧
    check_single_streamer sampleDeps (some nullSidInfo) watchLive (.str "detailed")
        true true false none none
      = .ok ⟨watchLive, [.fetchMessage 9, .editMessage 9]⟩ ∧
    sendCount [Effect.fetchMessage 9, Effect.editMessage 9] = 0 :=
  ⟨rfl, rfl, rfl, rfl, rfl⟩

/-- C1 witness: the amended characterization at a concrete offline
record seeing a live fetch with a truthy session id. -/
theorem went_live_send_characterization_witness :
    sendCount [Effect.send none] = 1 :=
  (went_live_send_characterization sampleDeps sampleDeps liveInfo watchOffline
      (.str "detailed") true true false none none 1
      ⟨{ watchOffline with
          is_live := true
          last_stream_id := JVal.num 5
          last_message_id := some 42 },
       [Effect.send none]⟩
      rfl (by decide) rfl rfl rfl).1
